import Mathlib

/-!
Shallow embedding of the `autobolt` two-plate fastener analysis pipeline.

The geometry builder `create_two_plate_assembly` (parametric_cad_solver.py)
is modelled numerically over the rationals: the plates, their subtracted
hole centres, and the bolt cylinders are recorded as explicit data.  The
boundary classification and FOS computation of `_calculate_fos_from_build123d`
(fea_solver.py) are modelled by `y_face` / `classify_surfaces` /
`applied_tractions` / `compute_FOS`; a Python exception (StopIteration from
an exhausted generator, ZeroDivisionError from float division by zero) is
modelled as `none`.
-/

/-- Source parametric_cad_solver.py line 34: `gap_m = plate_gap_mm * 1e-4`;
the gap parameter, documented as millimetres, is multiplied by `1e-4`. -/
def gap_to_meters (plate_gap_mm : ℚ) : ℚ := plate_gap_mm * (1 / 10000)

/-- Modelled from the spec: the correct millimetres-to-metres conversion
uses the factor `1e-3` (spec §9, stated as the intended behaviour). -/
def gap_to_meters_spec (plate_gap_mm : ℚ) : ℚ := plate_gap_mm * (1 / 1000)

/-- Source parametric_cad_solver.py lines 43-44: hole-centre X coordinates,
`x0 = plate_length_m - edge_margin_m` and `x_coords = [x0 - i * hole_spacing_m
for i in range(num_holes)]`. -/
def x_coords (plate_length_m edge_margin_m hole_spacing_m : ℚ) (num_holes : ℕ) : List ℚ :=
  (List.range num_holes).map
    (fun (i : ℕ) => (plate_length_m - edge_margin_m) - (i : ℚ) * hole_spacing_m)

/-- One bolt-like cylinder: centre coordinates, radius and height
(source lines 69-87, `Align.CENTER` on all three axes). -/
structure BoltCylinder where
  cx : ℚ
  cy : ℚ
  cz : ℚ
  radius : ℚ
  height : ℚ
  deriving DecidableEq

/-- One plate: box dimensions, the centres of the subtracted hole cylinders
(in the plate's X-Y plane), the hole radius, and the Z translation applied
to the plate. -/
structure PlateSolid where
  length : ℚ
  width : ℚ
  thickness : ℚ
  holeCenters : List (ℚ × ℚ)
  holeRadius : ℚ
  zShift : ℚ
  deriving DecidableEq

/-- The assembled compound of source line 90: plate A, plate B and the
bolt cylinders. -/
structure Assembly where
  plateA : PlateSolid
  plateB : PlateSolid
  bolts : List BoltCylinder
  deriving DecidableEq

/-- Source `create_two_plate_assembly` (parametric_cad_solver.py lines 4-91),
modelled numerically.  Plate A spans `[0,L]×[0,W]` with holes subtracted at
`(x_i, hole_offset_from_bottom_m)`; plate B is the copy shifted up in Z by
`thickness + gap`, mirrored about the XZ plane (`y ↦ -y`) and translated in Y
by `2 * hole_offset_from_bottom_m`; one bolt cylinder per hole position with
radius `hole_radius_m`, height `2*thickness + gap`, centred at
`(x_i, hole_offset_from_bottom_m, thickness/2 + gap/2)`. -/
def create_two_plate_assembly
    (plate_length_m plate_width_m plate_thickness_m : ℚ) (num_holes : ℕ)
    (hole_radius_m edge_margin_m hole_spacing_m hole_offset_from_bottom_m
      plate_gap_mm : ℚ) : Assembly :=
  let gap_m := gap_to_meters plate_gap_mm
  let xs := x_coords plate_length_m edge_margin_m hole_spacing_m num_holes
  let plateA : PlateSolid :=
    ⟨plate_length_m, plate_width_m, plate_thickness_m,
      xs.map (fun x => (x, hole_offset_from_bottom_m)), hole_radius_m, 0⟩
  let plateB : PlateSolid :=
    ⟨plate_length_m, plate_width_m, plate_thickness_m,
      (xs.map (fun x => (x, hole_offset_from_bottom_m))).map
        (fun p => (p.1, -p.2 + 2 * hole_offset_from_bottom_m)),
      hole_radius_m, plate_thickness_m + gap_m⟩
  let bolt_height_m := 2 * plate_thickness_m + gap_m
  let z_offset_m := plate_thickness_m / 2 + gap_m / 2
  let bolts := xs.map (fun x =>
    (⟨x, hole_offset_from_bottom_m, z_offset_m, hole_radius_m, bolt_height_m⟩ :
      BoltCylinder))
  ⟨plateA, plateB, bolts⟩

/-- The X coordinates of the hole centres actually recorded in the built
assembly's plate A. -/
def builder_hole_xs (plate_length_m plate_width_m plate_thickness_m : ℚ)
    (num_holes : ℕ)
    (hole_radius_m edge_margin_m hole_spacing_m hole_offset_from_bottom_m
      plate_gap_mm : ℚ) : List ℚ :=
  ((create_two_plate_assembly plate_length_m plate_width_m plate_thickness_m
      num_holes hole_radius_m edge_margin_m hole_spacing_m
      hole_offset_from_bottom_m plate_gap_mm).plateA.holeCenters).map Prod.fst

/-- One surface descriptor as built in fea_solver.py lines 62-66: the gmsh
surface tag with the Y extent of its bounding box. -/
structure SurfaceInfo where
  tag : ℕ
  ymin : ℚ
  ymax : ℚ
  deriving DecidableEq

/-- Source fea_solver.py line 68: `global_ymin = min(s[1] for s in surface_info)`;
`none` models the ValueError of `min` on an empty sequence. -/
def global_ymin : List SurfaceInfo → Option ℚ
  | [] => none
  | s :: rest => some (rest.foldl (fun acc t => min acc t.ymin) s.ymin)

/-- Source fea_solver.py line 69: `global_ymax = max(s[2] for s in surface_info)`. -/
def global_ymax : List SurfaceInfo → Option ℚ
  | [] => none
  | s :: rest => some (rest.foldl (fun acc t => max acc t.ymax) s.ymax)

/-- The matching predicate of `y_face` (fea_solver.py line 76): the surface is
flat in Y within tolerance and its Y position matches the target within
tolerance. -/
def facePred (s : SurfaceInfo) (target_y tol : ℚ) : Bool :=
  decide (|s.ymax - s.ymin| < tol) && decide (|s.ymin - target_y| < tol)

/-- Source fea_solver.py lines 72-77: `next(tag for tag, ymin, ymax in
surface_info if ...)` — the first surface satisfying the predicate, in list
order; `none` models the StopIteration raised when no surface matches. -/
def y_face (surface_info : List SurfaceInfo) (target_y tol : ℚ) : Option ℕ :=
  (surface_info.find? (fun s => facePred s target_y tol)).map SurfaceInfo.tag

/-- Source fea_solver.py line 72: the default tolerance `tol=1e-6` of the
`y_face` helper. -/
def default_tol : ℚ := 1 / 1000000

/-- The boundary assignment of fea_solver.py lines 82-83:
`zero_disp_tags = [trac_pos_tag]` and `traction_tags = [trac_neg_tag]`. -/
structure BoundaryAssignment where
  zero_disp_tags : List ℕ
  traction_tags : List ℕ
  deriving DecidableEq

/-- Source fea_solver.py lines 68-83: compute the global Y extrema, locate the
flat face at the global minimum (`trac_pos_tag`) and at the global maximum
(`trac_neg_tag`); the minimum face becomes the single zero-displacement
surface and the maximum face the single traction surface.  `none` models an
uncaught Python exception escaping the function. -/
def classify_surfaces (surface_info : List SurfaceInfo) (tol : ℚ) :
    Option BoundaryAssignment :=
  (global_ymin surface_info).bind fun gymin =>
  (global_ymax surface_info).bind fun gymax =>
  (y_face surface_info gymin tol).bind fun trac_pos_tag =>
  (y_face surface_info gymax tol).bind fun trac_neg_tag =>
  some ⟨[trac_pos_tag], [trac_neg_tag]⟩

/-- A traction vector. -/
abbrev Vec3 := ℚ × ℚ × ℚ

/-- Source fea_solver.py line 170: `for tag, traction in zip(traction_tags,
traction_values)` — Python's `zip` truncates to the shorter list, so surplus
traction values are dropped without error. -/
def applied_tractions (traction_tags : List ℕ) (traction_values : List Vec3) :
    List (ℕ × Vec3) :=
  traction_tags.zip traction_values

/-- Source fea_solver.py line 193: `FOS = yield_strength / max_stress`, an
unguarded Python float division; `none` models the ZeroDivisionError raised
when `max_stress` is zero, and otherwise the quotient is returned. -/
def compute_FOS (yield_strength max_stress : ℚ) : Option ℚ :=
  if max_stress = 0 then none else some (yield_strength / max_stress)

/-- Modelled from the spec: the external FEniCS linear-elasticity solve
(fea_solver.py lines 160-190, delegated to the external solver) is linear in
the applied traction, so the maximum von Mises stress is proportional to the
traction magnitude, with a proportionality constant `k` fixed by the geometry
and the material. -/
def max_stress_linear (k traction_magnitude : ℚ) : ℚ := k * traction_magnitude

/-- Unfolding helper: plate A's hole centres in the built assembly. -/
theorem create_holeCenters (L W T : ℚ) (n : ℕ) (r m s yoff g : ℚ) :
    (create_two_plate_assembly L W T n r m s yoff g).plateA.holeCenters
      = (x_coords L m s n).map (fun x => (x, yoff)) := rfl

/-- Unfolding helper: the bolt cylinders in the built assembly. -/
theorem create_bolts (L W T : ℚ) (n : ℕ) (r m s yoff g : ℚ) :
    (create_two_plate_assembly L W T n r m s yoff g).bolts
      = (x_coords L m s n).map (fun x =>
          (⟨x, yoff, T / 2 + gap_to_meters g / 2, r, 2 * T + gap_to_meters g⟩ :
            BoltCylinder)) := rfl

/-- Helper: the element of `x_coords` at index `i`. -/
theorem x_coords_get (L m s : ℚ) (n i : ℕ) (hi : i < n) :
    (x_coords L m s n).get? i = some ((L - m) - (i : ℚ) * s) := by
  unfold x_coords
  rw [List.get?_map, List.get?_range hi]
  rfl

/-- Helper: the builder's hole X list is exactly `x_coords`. -/
theorem builder_hole_xs_eq (L W T : ℚ) (n : ℕ) (r m s yoff g : ℚ) :
    builder_hole_xs L W T n r m s yoff g = x_coords L m s n := by
  unfold builder_hole_xs
  rw [create_holeCenters, List.map_map]
  have h : (Prod.fst ∘ fun x : ℚ => (x, yoff)) = id := rfl
  rw [h, List.map_id]

/-- Helper: `find?` returns the unique element satisfying the predicate. -/
theorem find?_eq_some_of_unique {α : Type} (p : α → Bool) (l : List α) (a : α)
    (hmem : a ∈ l) (hpa : p a = true)
    (huniq : ∀ b ∈ l, p b = true → b = a) :
    l.find? p = some a := by
  induction l with
  | nil => cases hmem
  | cons x xs ih =>
    by_cases hx : p x = true
    · have hxa : x = a := huniq x (List.mem_cons_self x xs) hx
      subst hxa
      exact List.find?_cons_of_pos xs hx
    · have hmem2 : a ∈ xs := by
        rcases List.mem_cons.mp hmem with h | h
        · exact absurd (h ▸ hpa) hx
        · exact h
      rw [List.find?_cons_of_neg xs hx]
      exact ih hmem2 (fun b hb hpb => huniq b (List.mem_cons_of_mem x hb) hpb)

/-- C1: the code converts the millimetre gap parameter with the factor
`1e-4`, not the correct millimetres-to-metres factor `1e-3`: at
`plate_gap_mm = 1` the gap used in geometry construction (visible as plate
B's Z shift above plate A's thickness) is `1/10000` m, which differs from the
spec-intended `1/1000` m. -/
theorem C1_gap_conversion_bug :
    gap_to_meters 1 = 1 / 10000 ∧ gap_to_meters_spec 1 = 1 / 1000 ∧
    gap_to_meters 1 ≠ gap_to_meters_spec 1 ∧
    (create_two_plate_assembly (1/5) (1/10) (1/100) 4 (1/100) (5387/100000)
        (7/200) (1/50) 1).plateB.zShift = 1/100 + 1/10000 := by
  refine ⟨by norm_num [gap_to_meters], by norm_num [gap_to_meters_spec],
    by norm_num [gap_to_meters, gap_to_meters_spec], ?_⟩
  norm_num [create_two_plate_assembly, gap_to_meters]

/-- C3 counterexample: with maximum von Mises stress `0` and yield strength
`2e8`, the FOS computation does not return an infinity or sentinel value: the
unguarded division raises ZeroDivisionError (modelled as `none`), refuting the
claim that a defined value is returned. -/
theorem C3_counterexample : compute_FOS 200000000 0 = none := by
  simp [compute_FOS]

/-- C3 amended: when the maximum von Mises stress is zero the FOS computation
raises a division fault (ZeroDivisionError, modelled as `none`) — no sentinel
or infinity is returned; for any nonzero maximum stress it returns the plain
quotient `yield_strength / max_stress`. -/
theorem C3_division_fault (yield_strength : ℚ) :
    compute_FOS yield_strength 0 = none ∧
    ∀ max_stress : ℚ, max_stress ≠ 0 →
      compute_FOS yield_strength max_stress
        = some (yield_strength / max_stress) := by
  constructor
  · simp [compute_FOS]
  · intro ms h
    simp [compute_FOS, h]

/-- Witness for the amended C3 at concrete inputs. -/
theorem C3_division_fault_witness :
    compute_FOS 200000000 0 = none ∧
    compute_FOS 200000000 2 = some 100000000 := by
  refine ⟨(C3_division_fault 200000000).1, ?_⟩
  rw [(C3_division_fault 200000000).2 2 (by norm_num)]
  norm_num

/-- C7: with `num_holes = 0` the geometry builder succeeds on any parameters,
producing two plates with no subtracted holes and an empty list of bolt
cylinders, the plates keeping their full box dimensions. -/
theorem C7_zero_holes (L W T r m s yoff gmm : ℚ) :
    (create_two_plate_assembly L W T 0 r m s yoff gmm).plateA.holeCenters = [] ∧
    (create_two_plate_assembly L W T 0 r m s yoff gmm).plateB.holeCenters = [] ∧
    (create_two_plate_assembly L W T 0 r m s yoff gmm).bolts = [] ∧
    (create_two_plate_assembly L W T 0 r m s yoff gmm).plateA.length = L ∧
    (create_two_plate_assembly L W T 0 r m s yoff gmm).plateA.width = W ∧
    (create_two_plate_assembly L W T 0 r m s yoff gmm).plateA.thickness = T ∧
    (create_two_plate_assembly L W T 0 r m s yoff gmm).plateB.length = L ∧
    (create_two_plate_assembly L W T 0 r m s yoff gmm).plateB.width = W ∧
    (create_two_plate_assembly L W T 0 r m s yoff gmm).plateB.thickness = T := by
  refine ⟨?_, ?_, ?_, rfl, rfl, rfl, rfl, rfl, rfl⟩ <;>
    simp [create_two_plate_assembly, x_coords]

/-- C5: for `num_holes ≥ 1` and positive hole spacing, the hole-centre X
coordinates recorded by the geometry builder form a list of length
`num_holes` whose first element is `plate_length - edge_margin`, whose `i`-th
element is `(plate_length - edge_margin) - i * hole_spacing`, and in which
each element exceeds its successor by exactly `hole_spacing` (so the sequence
is strictly decreasing with common difference `hole_spacing`). -/
theorem C5_hole_x_sequence (L W T r m s yoff gmm : ℚ) (n : ℕ)
    (hn : 1 ≤ n) (hs : 0 < s) :
    (builder_hole_xs L W T n r m s yoff gmm).length = n ∧
    (builder_hole_xs L W T n r m s yoff gmm).get? 0 = some (L - m) ∧
    ∀ i : ℕ, i + 1 < n →
      (builder_hole_xs L W T n r m s yoff gmm).get? i
        = some ((L - m) - (i : ℚ) * s) ∧
      (builder_hole_xs L W T n r m s yoff gmm).get? (i + 1)
        = some (((L - m) - (i : ℚ) * s) - s) ∧
      ((L - m) - (i : ℚ) * s) - s < (L - m) - (i : ℚ) * s := by
  rw [builder_hole_xs_eq]
  refine ⟨?_, ?_, ?_⟩
  · simp [x_coords]
  · rw [x_coords_get L m s n 0 (by omega)]
    norm_num
  · intro i hi
    refine ⟨x_coords_get L m s n i (by omega), ?_, by linarith⟩
    rw [x_coords_get L m s n (i + 1) hi]
    push_cast
    ring_nf

/-- Witness for C5 at a concrete parameter set. -/
theorem C5_hole_x_sequence_witness :
    (builder_hole_xs (1/5) (1/10) (1/100) 4 (1/100) (5387/100000) (7/200)
        (1/50) (1/100)).length = 4 ∧
    (builder_hole_xs (1/5) (1/10) (1/100) 4 (1/100) (5387/100000) (7/200)
        (1/50) (1/100)).get? 0 = some ((1/5) - (5387/100000)) ∧
    ∀ i : ℕ, i + 1 < 4 →
      (builder_hole_xs (1/5) (1/10) (1/100) 4 (1/100) (5387/100000) (7/200)
          (1/50) (1/100)).get? i
        = some (((1/5) - (5387/100000)) - (i : ℚ) * (7/200)) ∧
      (builder_hole_xs (1/5) (1/10) (1/100) 4 (1/100) (5387/100000) (7/200)
          (1/50) (1/100)).get? (i + 1)
        = some ((((1/5) - (5387/100000)) - (i : ℚ) * (7/200)) - (7/200)) ∧
      (((1/5) - (5387/100000)) - (i : ℚ) * (7/200)) - (7/200)
        < ((1/5) - (5387/100000)) - (i : ℚ) * (7/200) :=
  C5_hole_x_sequence (1/5) (1/10) (1/100) (1/100) (5387/100000) (7/200) (1/50)
    (1/100) 4 (by norm_num) (by norm_num)

/-- C8: the geometry builder constructs exactly one bolt cylinder per hole
position: the `i`-th bolt has radius equal to the hole radius, height
`2 * thickness + gap`, and centre
`(x_i, hole_offset_from_bottom, thickness/2 + gap/2)` where the gap is the
converted plate gap. -/
theorem C8_bolt_cylinders (L W T r m s yoff gmm : ℚ) (n i : ℕ) (hi : i < n) :
    ((create_two_plate_assembly L W T n r m s yoff gmm).bolts).length = n ∧
    ((create_two_plate_assembly L W T n r m s yoff gmm).bolts).get? i
      = some ⟨(L - m) - (i : ℚ) * s, yoff,
          T / 2 + gap_to_meters gmm / 2, r, 2 * T + gap_to_meters gmm⟩ := by
  rw [create_bolts]
  constructor
  · simp [x_coords]
  · rw [List.get?_map, x_coords_get L m s n i hi]
    rfl

/-- Witness for C8 at a concrete parameter set and index. -/
theorem C8_bolt_cylinders_witness :
    ((create_two_plate_assembly (1/5) (1/10) (1/100) 4 (1/100) (5387/100000)
        (7/200) (1/50) (1/100)).bolts).length = 4 ∧
    ((create_two_plate_assembly (1/5) (1/10) (1/100) 4 (1/100) (5387/100000)
        (7/200) (1/50) (1/100)).bolts).get? 2
      = some ⟨((1/5) - (5387/100000)) - (2 : ℚ) * (7/200), 1/50,
          (1/100) / 2 + gap_to_meters (1/100) / 2, 1/100,
          2 * (1/100) + gap_to_meters (1/100)⟩ :=
  C8_bolt_cylinders (1/5) (1/10) (1/100) (1/100) (5387/100000) (7/200) (1/50)
    (1/100) 4 2 (by norm_num)

/-- C4 counterexample: the parameter set `plate_length = 1/5`,
`edge_margin = 3/20`, `num_holes = 3`, `hole_spacing = 1/20` violates the
invariant (`3/20 + 2 * (1/20) = 1/4 > 1/5`), yet no InvalidParameterError is
raised: the geometry builder runs and constructs all three holes, the third
centred at the negative coordinate `x = -1/20`, outside the plate. -/
theorem C4_counterexample :
    ((3 : ℚ)/20 + ((3 : ℚ) - 1) * (1/20) > 1/5) ∧
    (create_two_plate_assembly (1/5) (1/10) (1/100) 3 (1/100) (3/20) (1/20)
        (1/50) 1).plateA.holeCenters
      = [(1/20, 1/50), (0, 1/50), (-1/20, 1/50)] := by
  constructor
  · norm_num
  · rw [create_holeCenters]
    norm_num [x_coords, List.range_succ]

/-- C4 amended: the pipeline performs no parameter validation at all — even
when `edge_margin + (num_holes - 1) * hole_spacing` exceeds `plate_length`,
geometry construction proceeds: the builder returns an assembly with one hole
and one bolt per requested position, including a hole centred at the negative
X coordinate `(plate_length - edge_margin) - (num_holes - 1) * hole_spacing`,
outside the plate. -/
theorem C4_no_validation (L W T r m s yoff gmm : ℚ) (n : ℕ)
    (hn : 1 ≤ n)
    (hviol : L < m + ((n : ℚ) - 1) * s) :
    ((create_two_plate_assembly L W T n r m s yoff gmm).plateA.holeCenters).length
      = n ∧
    ((create_two_plate_assembly L W T n r m s yoff gmm).bolts).length = n ∧
    ((L - m) - ((n : ℚ) - 1) * s, yoff)
      ∈ (create_two_plate_assembly L W T n r m s yoff gmm).plateA.holeCenters ∧
    (L - m) - ((n : ℚ) - 1) * s < 0 := by
  have hsub : ((n - 1 : ℕ) : ℚ) = (n : ℚ) - 1 := by
    rw [Nat.cast_sub hn, Nat.cast_one]
  refine ⟨?_, ?_, ?_, by linarith⟩
  · rw [create_holeCenters]
    simp [x_coords]
  · rw [create_bolts]
    simp [x_coords]
  · rw [create_holeCenters]
    refine List.mem_map.mpr ⟨(L - m) - ((n : ℚ) - 1) * s, ?_, rfl⟩
    unfold x_coords
    refine List.mem_map.mpr ⟨n - 1, List.mem_range.mpr (by omega), ?_⟩
    rw [hsub]

/-- Witness for the amended C4 at the concrete violating parameter set. -/
theorem C4_no_validation_witness :
    ((create_two_plate_assembly (1/5) (1/10) (1/100) 3 (1/100) (3/20) (1/20)
        (1/50) 1).plateA.holeCenters).length = 3 ∧
    ((create_two_plate_assembly (1/5) (1/10) (1/100) 3 (1/100) (3/20) (1/20)
        (1/50) 1).bolts).length = 3 ∧
    (((1 : ℚ)/5 - 3/20) - ((3 : ℚ) - 1) * (1/20), (1 : ℚ)/50)
      ∈ (create_two_plate_assembly (1/5) (1/10) (1/100) 3 (1/100) (3/20)
          (1/20) (1/50) 1).plateA.holeCenters ∧
    ((1 : ℚ)/5 - 3/20) - ((3 : ℚ) - 1) * (1/20) < 0 :=
  C4_no_validation (1/5) (1/10) (1/100) (1/100) (3/20) (1/20) (1/50) 1 3
    (by norm_num) (by norm_num)

/-- C2 counterexample: in the surface set `[⟨1,0,0⟩, ⟨2,0,0⟩, ⟨3,5,5⟩]` two
surfaces (tags 1 and 2) are flat at the global minimum extent `0` within the
code's tolerance, yet classification does not fail: it silently returns the
first matching surface, tag 1, as the fixed surface — refuting the claim that
multiple matches cause an AmbiguousBoundaryError. -/
theorem C2_counterexample :
    (([⟨1, 0, 0⟩, ⟨2, 0, 0⟩, ⟨3, 5, 5⟩] : List SurfaceInfo).countP
        (fun s => facePred s 0 default_tol) = 2) ∧
    global_ymin [⟨1, 0, 0⟩, ⟨2, 0, 0⟩, ⟨3, 5, 5⟩] = some 0 ∧
    classify_surfaces [⟨1, 0, 0⟩, ⟨2, 0, 0⟩, ⟨3, 5, 5⟩] default_tol
      = some ⟨[1], [3]⟩ := by
  have hp1 : facePred ⟨1, 0, 0⟩ 0 default_tol = true := by
    norm_num [facePred, abs_sub_lt_iff, default_tol]
  have hp2 : facePred ⟨2, 0, 0⟩ 0 default_tol = true := by
    norm_num [facePred, abs_sub_lt_iff, default_tol]
  have hp3 : facePred ⟨3, 5, 5⟩ 0 default_tol = false := by
    norm_num [facePred, abs_sub_lt_iff, default_tol]
  have hq1 : facePred ⟨1, 0, 0⟩ 5 default_tol = false := by
    norm_num [facePred, abs_sub_lt_iff, default_tol]
  have hq2 : facePred ⟨2, 0, 0⟩ 5 default_tol = false := by
    norm_num [facePred, abs_sub_lt_iff, default_tol]
  have hq3 : facePred ⟨3, 5, 5⟩ 5 default_tol = true := by
    norm_num [facePred, abs_sub_lt_iff, default_tol]
  have hgmin : global_ymin [⟨1, 0, 0⟩, ⟨2, 0, 0⟩, ⟨3, 5, 5⟩] = some 0 := by
    norm_num [global_ymin, min_def]
  have hgmax : global_ymax [⟨1, 0, 0⟩, ⟨2, 0, 0⟩, ⟨3, 5, 5⟩] = some 5 := by
    norm_num [global_ymax, max_def]
  have hyf0 : y_face [⟨1, 0, 0⟩, ⟨2, 0, 0⟩, ⟨3, 5, 5⟩] 0 default_tol
      = some 1 := by
    simp [y_face, List.find?, hp1]
  have hyf5 : y_face [⟨1, 0, 0⟩, ⟨2, 0, 0⟩, ⟨3, 5, 5⟩] 5 default_tol
      = some 3 := by
    simp [y_face, List.find?, hq1, hq2, hq3]
  refine ⟨?_, hgmin, ?_⟩
  · norm_num [List.countP_cons, List.countP_nil, hp1, hp2, hp3]
  · simp [classify_surfaces, hgmin, hgmax, hyf0, hyf5]

/-- C2 amended: when zero surfaces match an extreme within tolerance the
classifier fails by exhausting the generator (StopIteration, modelled as
`none`) — not with an AmbiguousBoundaryError, which does not exist in the
code; when one or more surfaces match, classification succeeds and silently
selects the first matching surface in enumeration order. -/
theorem C2_first_match_policy (si : List SurfaceInfo) (tol gymin gymax : ℚ)
    (hgmin : global_ymin si = some gymin)
    (hgmax : global_ymax si = some gymax) :
    (y_face si gymin tol = none → classify_surfaces si tol = none) ∧
    (∀ t u, y_face si gymin tol = some t → y_face si gymax tol = some u →
      classify_surfaces si tol = some ⟨[t], [u]⟩) ∧
    (∀ t, y_face si gymin tol = some t →
      ∃ s l1 l2, si = l1 ++ s :: l2 ∧ SurfaceInfo.tag s = t ∧
        facePred s gymin tol = true ∧
        ∀ s2 ∈ l1, facePred s2 gymin tol = false) := by
  refine ⟨?_, ?_, ?_⟩
  · intro h
    simp [classify_surfaces, hgmin, hgmax, h]
  · intro t u ht hu
    simp [classify_surfaces, hgmin, hgmax, ht, hu]
  · intro t ht
    unfold y_face at ht
    obtain ⟨s, hfind, htag⟩ := Option.map_eq_some'.mp ht
    obtain ⟨hps, l1, l2, heq, hall⟩ := List.find?_eq_some.mp hfind
    exact ⟨s, l1, l2, heq, htag, hps,
      fun s2 h2 => by simpa using hall s2 h2⟩

/-- Witness for the amended C2 at a concrete surface set. -/
theorem C2_first_match_policy_witness :
    (y_face [⟨4, 0, 0⟩, ⟨5, 0, 0⟩, ⟨6, 7, 7⟩] 0 default_tol = none →
      classify_surfaces [⟨4, 0, 0⟩, ⟨5, 0, 0⟩, ⟨6, 7, 7⟩] default_tol
        = none) ∧
    (∀ t u, y_face [⟨4, 0, 0⟩, ⟨5, 0, 0⟩, ⟨6, 7, 7⟩] 0 default_tol = some t →
      y_face [⟨4, 0, 0⟩, ⟨5, 0, 0⟩, ⟨6, 7, 7⟩] 7 default_tol = some u →
      classify_surfaces [⟨4, 0, 0⟩, ⟨5, 0, 0⟩, ⟨6, 7, 7⟩] default_tol
        = some ⟨[t], [u]⟩) ∧
    (∀ t, y_face [⟨4, 0, 0⟩, ⟨5, 0, 0⟩, ⟨6, 7, 7⟩] 0 default_tol = some t →
      ∃ s l1 l2,
        ([⟨4, 0, 0⟩, ⟨5, 0, 0⟩, ⟨6, 7, 7⟩] : List SurfaceInfo)
          = l1 ++ s :: l2 ∧
        SurfaceInfo.tag s = t ∧ facePred s 0 default_tol = true ∧
        ∀ s2 ∈ l1, facePred s2 0 default_tol = false) :=
  C2_first_match_policy [⟨4, 0, 0⟩, ⟨5, 0, 0⟩, ⟨6, 7, 7⟩] default_tol 0 7
    (by norm_num [global_ymin, min_def]) (by norm_num [global_ymax, max_def])

/-- C6: when the surface set has a unique flat face at the global minimum Y
extent and a unique flat face at the global maximum Y extent, the classifier
assigns the minimum face as the single fixed (zero-displacement) surface and
the maximum face as the single traction surface, and the traction surface is
paired with the caller-supplied traction vector. -/
theorem C6_extreme_face_assignment (si : List SurfaceInfo)
    (tol gymin gymax : ℚ) (smin smax : SurfaceInfo) (v : Vec3)
    (rest : List Vec3)
    (hgmin : global_ymin si = some gymin)
    (hgmax : global_ymax si = some gymax)
    (hminmem : smin ∈ si) (hminflat : facePred smin gymin tol = true)
    (hminuniq : ∀ s ∈ si, facePred s gymin tol = true → s = smin)
    (hmaxmem : smax ∈ si) (hmaxflat : facePred smax gymax tol = true)
    (hmaxuniq : ∀ s ∈ si, facePred s gymax tol = true → s = smax) :
    classify_surfaces si tol
      = some ⟨[SurfaceInfo.tag smin], [SurfaceInfo.tag smax]⟩ ∧
    applied_tractions [SurfaceInfo.tag smax] (v :: rest)
      = [(SurfaceInfo.tag smax, v)] := by
  have hfmin : si.find? (fun s => facePred s gymin tol) = some smin :=
    find?_eq_some_of_unique _ si smin hminmem hminflat hminuniq
  have hfmax : si.find? (fun s => facePred s gymax tol) = some smax :=
    find?_eq_some_of_unique _ si smax hmaxmem hmaxflat hmaxuniq
  have hymin : y_face si gymin tol = some (SurfaceInfo.tag smin) := by
    simp [y_face, hfmin]
  have hymax : y_face si gymax tol = some (SurfaceInfo.tag smax) := by
    simp [y_face, hfmax]
  constructor
  · simp [classify_surfaces, hgmin, hgmax, hymin, hymax]
  · rfl

/-- Witness for C6 at a concrete surface set with unique extreme faces. -/
theorem C6_extreme_face_assignment_witness :
    classify_surfaces [⟨1, 0, 0⟩, ⟨2, 5, 5⟩, ⟨3, 0, 5⟩] default_tol
      = some ⟨[SurfaceInfo.tag ⟨1, 0, 0⟩], [SurfaceInfo.tag ⟨2, 5, 5⟩]⟩ ∧
    applied_tractions [SurfaceInfo.tag ⟨2, 5, 5⟩] [(0, -1, 0)]
      = [(SurfaceInfo.tag ⟨2, 5, 5⟩, (0, -1, 0))] := by
  refine C6_extreme_face_assignment [⟨1, 0, 0⟩, ⟨2, 5, 5⟩, ⟨3, 0, 5⟩]
    default_tol 0 5 ⟨1, 0, 0⟩ ⟨2, 5, 5⟩ (0, -1, 0) []
    ?_ ?_ ?_ ?_ ?_ ?_ ?_ ?_
  · norm_num [global_ymin, min_def]
  · norm_num [global_ymax, max_def]
  · simp
  · norm_num [facePred, abs_sub_lt_iff, default_tol]
  · intro s hs hp
    fin_cases hs
    · rfl
    · exact absurd hp (by norm_num [facePred, abs_sub_lt_iff, default_tol])
    · exact absurd hp (by norm_num [facePred, abs_sub_lt_iff, default_tol])
  · simp
  · norm_num [facePred, abs_sub_lt_iff, default_tol]
  · intro s hs hp
    fin_cases hs
    · exact absurd hp (by norm_num [facePred, abs_sub_lt_iff, default_tol])
    · rfl
    · exact absurd hp (by norm_num [facePred, abs_sub_lt_iff, default_tol])

/-- Helper: a nonempty surface set with a global maximum also has a global
minimum. -/
theorem global_ymin_isSome_of_ymax {si : List SurfaceInfo} {g : ℚ}
    (h : global_ymax si = some g) : ∃ g2, global_ymin si = some g2 := by
  cases si with
  | nil => simp [global_ymax] at h
  | cons s rest => exact ⟨_, rfl⟩

/-- C10: whenever classification succeeds, exactly one surface receives a
traction load — the flat face at the global maximum Y extent — and exactly
one surface is fixed; pairing the traction tags with the supplied traction
list uses only its first element, and any further traction vectors are
silently dropped. -/
theorem C10_single_traction (si : List SurfaceInfo) (tol gymax : ℚ)
    (a : BoundaryAssignment)
    (hgmax : global_ymax si = some gymax)
    (hc : classify_surfaces si tol = some a) (v : Vec3) (rest : List Vec3) :
    ∃ t, y_face si gymax tol = some t ∧ a.traction_tags = [t] ∧
      a.zero_disp_tags.length = 1 ∧
      applied_tractions a.traction_tags (v :: rest) = [(t, v)] := by
  obtain ⟨g2, hgmin⟩ := global_ymin_isSome_of_ymax hgmax
  unfold classify_surfaces at hc
  rw [hgmin, hgmax] at hc
  simp only [Option.some_bind, Option.bind_eq_some, Option.some.injEq] at hc
  obtain ⟨t1, h1, t2, h2, ha⟩ := hc
  subst ha
  exact ⟨t2, h2, rfl, rfl, rfl⟩

/-- Witness for C10: a concrete classification with two supplied traction
vectors, of which only the first is applied. -/
theorem C10_single_traction_witness :
    ∃ t, y_face [⟨7, 0, 0⟩, ⟨8, 3, 3⟩, ⟨9, 0, 3⟩] 3 default_tol = some t ∧
      (BoundaryAssignment.traction_tags ⟨[7], [8]⟩) = [t] ∧
      (BoundaryAssignment.zero_disp_tags ⟨[7], [8]⟩).length = 1 ∧
      applied_tractions (BoundaryAssignment.traction_tags ⟨[7], [8]⟩)
        ((0, -2, 0) :: [(1, 1, 1)]) = [(t, (0, -2, 0))] := by
  have hp7 : facePred ⟨7, 0, 0⟩ 0 default_tol = true := by
    norm_num [facePred, abs_sub_lt_iff, default_tol]
  have hq7 : facePred ⟨7, 0, 0⟩ 3 default_tol = false := by
    norm_num [facePred, abs_sub_lt_iff, default_tol]
  have hq8 : facePred ⟨8, 3, 3⟩ 3 default_tol = true := by
    norm_num [facePred, abs_sub_lt_iff, default_tol]
  have hgmin : global_ymin [⟨7, 0, 0⟩, ⟨8, 3, 3⟩, ⟨9, 0, 3⟩] = some 0 := by
    norm_num [global_ymin, min_def]
  have hgmax : global_ymax [⟨7, 0, 0⟩, ⟨8, 3, 3⟩, ⟨9, 0, 3⟩] = some 3 := by
    norm_num [global_ymax, max_def]
  have hyf0 : y_face [⟨7, 0, 0⟩, ⟨8, 3, 3⟩, ⟨9, 0, 3⟩] 0 default_tol
      = some 7 := by
    simp [y_face, List.find?, hp7]
  have hyf3 : y_face [⟨7, 0, 0⟩, ⟨8, 3, 3⟩, ⟨9, 0, 3⟩] 3 default_tol
      = some 8 := by
    simp [y_face, List.find?, hq7, hq8]
  exact C10_single_traction [⟨7, 0, 0⟩, ⟨8, 3, 3⟩, ⟨9, 0, 3⟩] default_tol 3
    ⟨[7], [8]⟩ hgmax
    (by simp [classify_surfaces, hgmin, hgmax, hyf0, hyf3])
    (0, -2, 0) [(1, 1, 1)]

/-- C9: for fixed geometry, material (proportionality constant `k > 0` of the
linear solve) and yield strength, strictly increasing the magnitude of the
applied traction from a nonzero initial value strictly decreases the
resulting factor of safety. -/
theorem C9_fos_monotone (k yield_strength m1 m2 : ℚ)
    (hk : 0 < k) (hy : 0 < yield_strength) (h1 : 0 < m1) (h12 : m1 < m2) :
    compute_FOS yield_strength (max_stress_linear k m1)
      = some (yield_strength / (k * m1)) ∧
    compute_FOS yield_strength (max_stress_linear k m2)
      = some (yield_strength / (k * m2)) ∧
    yield_strength / (k * m2) < yield_strength / (k * m1) := by
  have hkm1 : 0 < k * m1 := mul_pos hk h1
  have hkm2 : 0 < k * m2 := mul_pos hk (h1.trans h12)
  refine ⟨?_, ?_, ?_⟩
  · simp [compute_FOS, max_stress_linear, hkm1.ne']
  · simp [compute_FOS, max_stress_linear, hkm2.ne']
  · rw [div_lt_div_iff hkm2 hkm1]
    exact mul_lt_mul_of_pos_left (mul_lt_mul_of_pos_left h12 hk) hy

/-- Witness for C9 at concrete values: doubling a 1 MPa traction magnitude
halves the FOS. -/
theorem C9_fos_monotone_witness :
    compute_FOS 200000000 (max_stress_linear 1 1000000)
      = some (200000000 / (1 * 1000000)) ∧
    compute_FOS 200000000 (max_stress_linear 1 2000000)
      = some (200000000 / (1 * 2000000)) ∧
    (200000000 : ℚ) / (1 * 2000000) < 200000000 / (1 * 1000000) :=
  C9_fos_monotone 1 200000000 1000000 2000000 (by norm_num) (by norm_num)
    (by norm_num) (by norm_num)
